import Mathlib

/-!
Verification of the MLFeatures core of this repository
(`src/Tensile/Source/lib/include/Tensile/MLFeatures.hpp`).

Embedding conventions:

* C++ `float` arithmetic is embedded as exact rational arithmetic over `ℚ`;
  `ceil` (from `<cmath>`) becomes `Int.ceil` cast back to `ℚ`.
* The external occupancy-scoring collaborator
  `ContractionSolution::computeGranularity` (called `GranularityFn` in the
  documentation) is declared in a header that is not part of this core, and
  its contract is consumed but not defined here; every evaluation function
  that calls it therefore takes it as an explicit parameter `g : ℚ → ℚ`.
* The C++ `operator()` members are embedded as `eval` functions taking the
  feature record (the instance configuration) and the problem.  Each
  `operator()` is `const` over a `const&` problem; `MLFeature.evalSt` makes
  this explicit as state passing, returning the (unchanged) feature and
  problem together with the computed scalar.
* An out-of-range index given to a problem accessor is the accessor's own
  failure; evaluation results are therefore `Option ℚ`, with `none` for the
  propagated accessor failure.
-/

namespace Tensile

/-- Modelled from the spec: the external `ContractionProblem` collaborator
(declared in `Tensile/ContractionProblem.hpp`, which is not part of this
core) exposes indexed read-only accessors `freeSizeA`, `freeSizeB`,
`boundSize` returning non-negative integral dimension sizes; calling an
accessor with an out-of-range index is the accessor's own failure mode,
modelled as `none`. -/
structure ContractionProblem where
  freeSizesA : List Nat
  freeSizesB : List Nat
  boundSizes : List Nat

def ContractionProblem.freeSizeA (p : ContractionProblem) (i : Nat) : Option Nat :=
  p.freeSizesA[i]?

def ContractionProblem.freeSizeB (p : ContractionProblem) (i : Nat) : Option Nat :=
  p.freeSizesB[i]?

def ContractionProblem.boundSize (p : ContractionProblem) (i : Nat) : Option Nat :=
  p.boundSizes[i]?

/-- Modelled from the spec: `ContractionSolution::GranularityScaleFactors`
(declared in `Tensile/ContractionSolution.hpp`, which is not part of this
core): the record of the three scale factors `mt0_scale`, `mt1_scale`,
`devSolScale` supplied by the solution model. -/
structure GranularityScaleFactors where
  mt0_scale : ℚ
  mt1_scale : ℚ
  devSolScale : ℚ

namespace MLFeatures

/-- Embedding of `MLFeatures::FreeSizeA`: indexed pass-through of
`problem.freeSizeA(index)` (`HasIndex = true`, `HasValue = false`). -/
structure FreeSizeA where
  index : Nat

/-- Embedding of `FreeSizeA::Type()`. -/
def FreeSizeA.typeString : String := "FreeSizeA"

/-- Embedding of `FreeSizeA::operator()`:
`return (float)problem.freeSizeA(index);`. -/
def FreeSizeA.eval (f : FreeSizeA) (p : ContractionProblem) : Option ℚ :=
  (p.freeSizeA f.index).map fun s => (s : ℚ)

/-- Embedding of `MLFeatures::FreeSizeB`: indexed pass-through of
`problem.freeSizeB(index)`. -/
structure FreeSizeB where
  index : Nat

/-- Embedding of `FreeSizeB::Type()`. -/
def FreeSizeB.typeString : String := "FreeSizeB"

/-- Embedding of `FreeSizeB::operator()`:
`return (float)problem.freeSizeB(index);`. -/
def FreeSizeB.eval (f : FreeSizeB) (p : ContractionProblem) : Option ℚ :=
  (p.freeSizeB f.index).map fun s => (s : ℚ)

/-- Embedding of `MLFeatures::BoundSize`: indexed pass-through of
`problem.boundSize(index)`. -/
structure BoundSize where
  index : Nat

/-- Embedding of `BoundSize::Type()`. -/
def BoundSize.typeString : String := "BoundSize"

/-- Embedding of `BoundSize::operator()`:
`return (float)problem.boundSize(index);`. -/
def BoundSize.eval (f : BoundSize) (p : ContractionProblem) : Option ℚ :=
  (p.boundSize f.index).map fun s => (s : ℚ)

/-- Embedding of `MLFeatures::Tile0Granularity` (`HasValue = true`), whose
`value` field holds `1/mt0`. -/
structure Tile0Granularity where
  value : ℚ

/-- Embedding of `Tile0Granularity::Type()`. -/
def Tile0Granularity.typeString : String := "Tile0Granularity"

/-- Embedding of `Tile0Granularity::operator()`:
`numTiles = problem.freeSizeA(0) * value;
return computeGranularity(numTiles);` with the external
`computeGranularity` abstract as `g`. -/
def Tile0Granularity.eval (g : ℚ → ℚ) (f : Tile0Granularity)
    (p : ContractionProblem) : Option ℚ :=
  (p.freeSizeA 0).map fun s =>
    let numTiles : ℚ := (s : ℚ) * f.value
    g numTiles

/-- Embedding of `MLFeatures::Tile1Granularity` (`HasValue = true`), whose
`value` field holds `1/mt1`. -/
structure Tile1Granularity where
  value : ℚ

/-- Embedding of `Tile1Granularity::Type()`. -/
def Tile1Granularity.typeString : String := "Tile1Granularity"

/-- Embedding of `Tile1Granularity::operator()`:
`numTiles = problem.freeSizeB(0) * value;
return computeGranularity(numTiles);`. -/
def Tile1Granularity.eval (g : ℚ → ℚ) (f : Tile1Granularity)
    (p : ContractionProblem) : Option ℚ :=
  (p.freeSizeB 0).map fun s =>
    let numTiles : ℚ := (s : ℚ) * f.value
    g numTiles

/-- Embedding of `MLFeatures::CUGranularity` (`HasValue = true`), whose
`value` field holds a `GranularityScaleFactors` payload. -/
structure CUGranularity where
  value : GranularityScaleFactors

/-- Embedding of `CUGranularity::Type()`. -/
def CUGranularity.typeString : String := "CUGranularity"

/-- Embedding of `CUGranularity::operator()`:
`NumBatches = 1; numTilesM = problem.freeSizeA(0) * value.mt0_scale;
numTilesN = problem.freeSizeB(0) * value.mt1_scale;
tilesPerCu = NumBatches * ceil(numTilesM) * ceil(numTilesN) * value.devSolScale;
return computeGranularity(tilesPerCu);`.
The accessors are read in source order, and either accessor failure
propagates. -/
def CUGranularity.eval (g : ℚ → ℚ) (f : CUGranularity)
    (p : ContractionProblem) : Option ℚ :=
  match p.freeSizeA 0, p.freeSizeB 0 with
  | some sa, some sb =>
      let NumBatches : ℚ := 1
      let numTilesM : ℚ := (sa : ℚ) * f.value.mt0_scale
      let numTilesN : ℚ := (sb : ℚ) * f.value.mt1_scale
      let tilesPerCu : ℚ :=
        NumBatches * (⌈numTilesM⌉ : ℚ) * (⌈numTilesN⌉ : ℚ) * f.value.devSolScale
      some (g tilesPerCu)
  | _, _ => none

/-- Embedding of `MLFeatures::WavesPerSIMD` (`HasValue = true`), whose
`value` field holds a `GranularityScaleFactors` payload. -/
structure WavesPerSIMD where
  value : GranularityScaleFactors

/-- Embedding of `WavesPerSIMD::Type()`. -/
def WavesPerSIMD.typeString : String := "WavesPerSIMD"

/-- Embedding of `WavesPerSIMD::operator()`:
`numTilesM = problem.freeSizeA(0) * value.mt0_scale;
numTilesN = problem.freeSizeB(0) * value.mt1_scale;
totalTiles = ceil(numTilesM) * ceil(numTilesN);
return totalTiles * value.devSolScale;` — note: the result is NOT passed
through `computeGranularity`. -/
def WavesPerSIMD.eval (f : WavesPerSIMD) (p : ContractionProblem) : Option ℚ :=
  match p.freeSizeA 0, p.freeSizeB 0 with
  | some sa, some sb =>
      let numTilesM : ℚ := (sa : ℚ) * f.value.mt0_scale
      let numTilesN : ℚ := (sb : ℚ) * f.value.mt1_scale
      let totalTiles : ℚ := (⌈numTilesM⌉ : ℚ) * (⌈numTilesN⌉ : ℚ)
      some (totalTiles * f.value.devSolScale)
  | _, _ => none

/-- The closed sum of the seven concrete feature kinds declared in
`MLFeatures.hpp`, each carrying its configuration. -/
inductive MLFeature where
  | freeSizeA (f : FreeSizeA)
  | freeSizeB (f : FreeSizeB)
  | boundSize (f : BoundSize)
  | tile0Granularity (f : Tile0Granularity)
  | tile1Granularity (f : Tile1Granularity)
  | cuGranularity (f : CUGranularity)
  | wavesPerSIMD (f : WavesPerSIMD)

/-- Dispatch of the static `Type()` query through the sum: the string
depends only on the kind, never on the instance configuration (in the
source, `Type()` is a `static` member). -/
def MLFeature.typeName : MLFeature → String
  | .freeSizeA _ => FreeSizeA.typeString
  | .freeSizeB _ => FreeSizeB.typeString
  | .boundSize _ => BoundSize.typeString
  | .tile0Granularity _ => Tile0Granularity.typeString
  | .tile1Granularity _ => Tile1Granularity.typeString
  | .cuGranularity _ => CUGranularity.typeString
  | .wavesPerSIMD _ => WavesPerSIMD.typeString

/-- Uniform polymorphic evaluation over the sum, dispatching to the
per-kind `operator()` embeddings. -/
def MLFeature.eval (g : ℚ → ℚ) : MLFeature → ContractionProblem → Option ℚ
  | .freeSizeA f, p => f.eval p
  | .freeSizeB f, p => f.eval p
  | .boundSize f, p => f.eval p
  | .tile0Granularity f, p => Tile0Granularity.eval g f p
  | .tile1Granularity f, p => Tile1Granularity.eval g f p
  | .cuGranularity f, p => CUGranularity.eval g f p
  | .wavesPerSIMD f, p => f.eval p

/-- State-passing form of evaluation.  In the source every `operator()` is
a `const` member taking `ContractionProblem const&`, so an evaluation step
returns the scalar together with the feature configuration and the problem,
both unchanged. -/
def MLFeature.evalSt (g : ℚ → ℚ) (f : MLFeature) (p : ContractionProblem) :
    Option ℚ × MLFeature × ContractionProblem :=
  (MLFeature.eval g f p, f, p)

end MLFeatures

end Tensile

open Tensile Tensile.MLFeatures

/-! Concrete inputs used by the witnesses. -/

/-- A concrete problem: `freeSizeA(0) = 5`, `freeSizeB(0) = 3`,
`boundSize(0) = 7`. -/
def pEx : ContractionProblem := ⟨[5], [3], [7]⟩

/-- A concrete problem agreeing with `pEx` on `freeSizeA(0)` and
`freeSizeB(0)` but differing in every other attribute. -/
def pEx2 : ContractionProblem := ⟨[5, 100], [3, 200], [9, 11]⟩

/-- A concrete problem with `freeSizeA(0) = 0`. -/
def pZeroA : ContractionProblem := ⟨[0], [4], []⟩

/-- A concrete problem with `freeSizeB(0) = 0`. -/
def pZeroB : ContractionProblem := ⟨[4], [0], []⟩

/-- The scale-factor payload of the worked example in the specification:
`mt0_scale = 1/2`, `mt1_scale = 1/3`, `devSolScale = 1/10`. -/
def sfEx : GranularityScaleFactors := ⟨1/2, 1/3, 1/10⟩

/-- Shared helper: `CUGranularity` evaluation is exactly `WavesPerSIMD`
evaluation post-composed with the abstract granularity function. -/
theorem cuGranularity_eq_map_wavesPerSIMD (g : ℚ → ℚ)
    (sf : GranularityScaleFactors) (p : ContractionProblem) :
    CUGranularity.eval g ⟨sf⟩ p = (WavesPerSIMD.eval ⟨sf⟩ p).map g := by
  unfold CUGranularity.eval WavesPerSIMD.eval
  cases p.freeSizeA 0 <;> cases p.freeSizeB 0 <;> simp [one_mul, mul_assoc]

/-- C1: for every problem whose first free sizes are defined and every
scale-factor payload, `CUGranularity` evaluation returns the granularity
function applied to `tilesPerCu = 1 * ceil(freeSizeA(0) * mt0_scale) *
ceil(freeSizeB(0) * mt1_scale) * devSolScale`, with the ceiling applied to
each tile-count dimension separately before the multiplication. -/
theorem C1_cuGranularity_per_dim_ceil (g : ℚ → ℚ)
    (sf : GranularityScaleFactors) (p : ContractionProblem) (m n : Nat)
    (hA : p.freeSizeA 0 = some m) (hB : p.freeSizeB 0 = some n) :
    CUGranularity.eval g ⟨sf⟩ p
      = some (g (1 * (⌈(m : ℚ) * sf.mt0_scale⌉ : ℚ)
          * (⌈(n : ℚ) * sf.mt1_scale⌉ : ℚ) * sf.devSolScale)) := by
  simp [CUGranularity.eval, hA, hB]

/-- C1 witness: with `freeSizeA(0) = 5`, `mt0_scale = 1/2`,
`freeSizeB(0) = 3`, `mt1_scale = 1/3`, `devSolScale = 1/10`, the result is
the granularity function applied to `3/10`. -/
theorem C1_witness : CUGranularity.eval id ⟨sfEx⟩ pEx = some (id (3/10 : ℚ)) := by
  have h := C1_cuGranularity_per_dim_ceil id sfEx pEx 5 3 rfl rfl
  have e1 : (⌈((5 : ℕ) : ℚ) * sfEx.mt0_scale⌉ : ℤ) = 3 := by
    norm_num [sfEx, Int.ceil_eq_iff]
  have e2 : (⌈((3 : ℕ) : ℚ) * sfEx.mt1_scale⌉ : ℤ) = 1 := by
    norm_num [sfEx, Int.ceil_eq_iff]
  rw [h, e1, e2]
  norm_num [sfEx]

/-- C2: for every problem whose first free sizes are defined,
`WavesPerSIMD` evaluation returns
`ceil(freeSizeA(0) * mt0_scale) * ceil(freeSizeB(0) * mt1_scale) *
devSolScale` directly, not passed through the granularity function; and
whenever the granularity function is not the identity on that count,
`CUGranularity` with the same payload returns a different value. -/
theorem C2_wavesPerSIMD_raw (g : ℚ → ℚ) (sf : GranularityScaleFactors)
    (p : ContractionProblem) (m n : Nat)
    (hA : p.freeSizeA 0 = some m) (hB : p.freeSizeB 0 = some n) :
    WavesPerSIMD.eval ⟨sf⟩ p
      = some ((⌈(m : ℚ) * sf.mt0_scale⌉ : ℚ) * (⌈(n : ℚ) * sf.mt1_scale⌉ : ℚ)
          * sf.devSolScale)
    ∧ (∀ t : ℚ, WavesPerSIMD.eval ⟨sf⟩ p = some t → g t ≠ t →
        CUGranularity.eval g ⟨sf⟩ p ≠ WavesPerSIMD.eval ⟨sf⟩ p) := by
  constructor
  · simp [WavesPerSIMD.eval, hA, hB]
  · intro t ht hgt
    rw [cuGranularity_eq_map_wavesPerSIMD, ht]
    simpa using hgt

/-- C2 witness: at the worked example `WavesPerSIMD` returns `3/10`
directly, and `CUGranularity` under the granularity function `x + 1`
(which is not the identity at `3/10`) differs from it. -/
theorem C2_witness :
    WavesPerSIMD.eval ⟨sfEx⟩ pEx = some ((3 : ℚ)/10)
    ∧ CUGranularity.eval (fun x => x + 1) ⟨sfEx⟩ pEx ≠ WavesPerSIMD.eval ⟨sfEx⟩ pEx := by
  have h := C2_wavesPerSIMD_raw (fun x => x + 1) sfEx pEx 5 3 rfl rfl
  have e1 : (⌈((5 : ℕ) : ℚ) * sfEx.mt0_scale⌉ : ℤ) = 3 := by
    norm_num [sfEx, Int.ceil_eq_iff]
  have e2 : (⌈((3 : ℕ) : ℚ) * sfEx.mt1_scale⌉ : ℤ) = 1 := by
    norm_num [sfEx, Int.ceil_eq_iff]
  have h1 : WavesPerSIMD.eval ⟨sfEx⟩ pEx = some ((3 : ℚ)/10) := by
    rw [h.1, e1, e2]; norm_num [sfEx]
  exact ⟨h1, h.2 (3/10) h1 (by norm_num)⟩

/-- C3: configured with the reciprocal of a positive tile extent,
`Tile0Granularity` returns the granularity function applied to
`freeSizeA(0) / mt0`, and `Tile1Granularity` symmetrically returns it
applied to `freeSizeB(0) / mt1`. -/
theorem C3_tileGranularity_quotient (g : ℚ → ℚ) (mt0 mt1 : ℚ)
    (hmt0 : 0 < mt0) (hmt1 : 0 < mt1) (p : ContractionProblem) (M N : Nat)
    (hA : p.freeSizeA 0 = some M) (hB : p.freeSizeB 0 = some N) :
    Tile0Granularity.eval g ⟨1/mt0⟩ p = some (g ((M : ℚ) / mt0))
    ∧ Tile1Granularity.eval g ⟨1/mt1⟩ p = some (g ((N : ℚ) / mt1)) := by
  constructor
  · simp [Tile0Granularity.eval, hA, div_eq_mul_inv]
  · simp [Tile1Granularity.eval, hB, div_eq_mul_inv]

/-- C3 witness: with `mt0 = 2`, `freeSizeA(0) = 5` the first feature
returns the granularity function at `5/2`, and with `mt1 = 3`,
`freeSizeB(0) = 3` the second returns it at `1`. -/
theorem C3_witness :
    Tile0Granularity.eval id ⟨1/2⟩ pEx = some (id ((5 : ℚ)/2))
    ∧ Tile1Granularity.eval id ⟨1/3⟩ pEx = some (id ((3 : ℚ)/3)) := by
  have h := C3_tileGranularity_quotient id 2 3 (by norm_num) (by norm_num) pEx 5 3 rfl rfl
  exact ⟨by rw [h.1]; norm_num, by rw [h.2]; norm_num⟩

/-- C4: the indexed features are exact pass-throughs: wherever the
problem accessor is defined, evaluation returns exactly the accessed size
as a scalar, with no computation beyond the numeric conversion. -/
theorem C4_indexed_pass_through (p : ContractionProblem) (i j k : Nat)
    (a b c : Nat) (hA : p.freeSizeA i = some a) (hB : p.freeSizeB j = some b)
    (hC : p.boundSize k = some c) :
    FreeSizeA.eval ⟨i⟩ p = some ((a : ℚ))
    ∧ FreeSizeB.eval ⟨j⟩ p = some ((b : ℚ))
    ∧ BoundSize.eval ⟨k⟩ p = some ((c : ℚ)) := by
  refine ⟨?_, ?_, ?_⟩ <;> simp [FreeSizeA.eval, FreeSizeB.eval, BoundSize.eval, hA, hB, hC]

/-- C4 witness: at the concrete problem the three indexed features return
`5`, `3` and `7` respectively. -/
theorem C4_witness :
    FreeSizeA.eval ⟨0⟩ pEx = some (((5 : ℕ) : ℚ))
    ∧ FreeSizeB.eval ⟨0⟩ pEx = some (((3 : ℕ) : ℚ))
    ∧ BoundSize.eval ⟨0⟩ pEx = some (((7 : ℕ) : ℚ)) :=
  C4_indexed_pass_through pEx 0 0 0 5 3 7 rfl rfl rfl

/-- C5: a size of `0` along the relevant free dimension gives a tile count
of `0`: the tile features return the granularity function at `0`,
`CUGranularity` returns it at `0` whenever either first free size is `0`,
`WavesPerSIMD` returns the raw value `0`, and in every case evaluation
succeeds (no division occurs). -/
theorem C5_zero_size_safe (g : ℚ → ℚ) :
    (∀ (v : ℚ) (p : ContractionProblem), p.freeSizeA 0 = some 0 →
        Tile0Granularity.eval g ⟨v⟩ p = some (g 0))
    ∧ (∀ (v : ℚ) (p : ContractionProblem), p.freeSizeB 0 = some 0 →
        Tile1Granularity.eval g ⟨v⟩ p = some (g 0))
    ∧ (∀ (sf : GranularityScaleFactors) (p : ContractionProblem) (m n : Nat),
        p.freeSizeA 0 = some m → p.freeSizeB 0 = some n → (m = 0 ∨ n = 0) →
        CUGranularity.eval g ⟨sf⟩ p = some (g 0)
        ∧ WavesPerSIMD.eval ⟨sf⟩ p = some 0) := by
  refine ⟨?_, ?_, ?_⟩
  · intro v p h
    simp [Tile0Granularity.eval, h]
  · intro v p h
    simp [Tile1Granularity.eval, h]
  · rintro sf p m n hA hB (rfl | rfl) <;>
      exact ⟨by simp [CUGranularity.eval, hA, hB],
        by simp [WavesPerSIMD.eval, hA, hB]⟩

/-- C5 witness: concrete zero-size problems for each of the four derived
features, with the granularity function instantiated to the identity. -/
theorem C5_witness :
    Tile0Granularity.eval id ⟨1/2⟩ pZeroA = some (id (0 : ℚ))
    ∧ Tile1Granularity.eval id ⟨1/3⟩ pZeroB = some (id (0 : ℚ))
    ∧ CUGranularity.eval id ⟨sfEx⟩ pZeroA = some (id (0 : ℚ))
    ∧ WavesPerSIMD.eval ⟨sfEx⟩ pZeroB = some (0 : ℚ) :=
  ⟨(C5_zero_size_safe id).1 (1/2) pZeroA rfl,
    (C5_zero_size_safe id).2.1 (1/3) pZeroB rfl,
    ((C5_zero_size_safe id).2.2 sfEx pZeroA 0 4 rfl rfl (Or.inl rfl)).1,
    ((C5_zero_size_safe id).2.2 sfEx pZeroB 4 0 rfl rfl (Or.inr rfl)).2⟩

/-- C6: evaluation is deterministic and side-effect free: the
state-passing form returns the feature configuration and the problem
unchanged, and an immediately repeated evaluation from the returned state
yields the identical scalar. -/
theorem C6_pure_evaluation (g : ℚ → ℚ) (f : MLFeature) (p : ContractionProblem) :
    (MLFeature.evalSt g f p).2.1 = f
    ∧ (MLFeature.evalSt g f p).2.2 = p
    ∧ (MLFeature.evalSt g ((MLFeature.evalSt g f p).2.1)
        ((MLFeature.evalSt g f p).2.2)).1 = (MLFeature.evalSt g f p).1 :=
  ⟨rfl, rfl, rfl⟩

/-- C7: the seven type-name strings are pairwise distinct, and the type
name of a feature depends only on its kind, never on the instance
configuration (it is a static per-kind constant, hence stable across
calls). -/
theorem C7_type_names_distinct_stable :
    ([FreeSizeA.typeString, FreeSizeB.typeString, BoundSize.typeString,
      Tile0Granularity.typeString, Tile1Granularity.typeString,
      CUGranularity.typeString, WavesPerSIMD.typeString].Nodup)
    ∧ (∀ f, (MLFeature.freeSizeA f).typeName = FreeSizeA.typeString)
    ∧ (∀ f, (MLFeature.freeSizeB f).typeName = FreeSizeB.typeString)
    ∧ (∀ f, (MLFeature.boundSize f).typeName = BoundSize.typeString)
    ∧ (∀ f, (MLFeature.tile0Granularity f).typeName = Tile0Granularity.typeString)
    ∧ (∀ f, (MLFeature.tile1Granularity f).typeName = Tile1Granularity.typeString)
    ∧ (∀ f, (MLFeature.cuGranularity f).typeName = CUGranularity.typeString)
    ∧ (∀ f, (MLFeature.wavesPerSIMD f).typeName = WavesPerSIMD.typeString) :=
  ⟨by decide, fun _ => rfl, fun _ => rfl, fun _ => rfl, fun _ => rfl,
    fun _ => rfl, fun _ => rfl, fun _ => rfl⟩

/-- C8: the indexed features do no index pre-validation of their own: the
accessor is consulted unconditionally at the configured index, the
accessor's out-of-bounds failure is propagated unchanged, and whenever the
accessor succeeds the evaluation succeeds. -/
theorem C8_failure_propagated (p : ContractionProblem) (i : Nat) :
    (FreeSizeA.eval ⟨i⟩ p = none ↔ p.freeSizeA i = none)
    ∧ (∀ s : Nat, p.freeSizeA i = some s → FreeSizeA.eval ⟨i⟩ p = some ((s : ℚ)))
    ∧ (FreeSizeB.eval ⟨i⟩ p = none ↔ p.freeSizeB i = none)
    ∧ (∀ s : Nat, p.freeSizeB i = some s → FreeSizeB.eval ⟨i⟩ p = some ((s : ℚ)))
    ∧ (BoundSize.eval ⟨i⟩ p = none ↔ p.boundSize i = none)
    ∧ (∀ s : Nat, p.boundSize i = some s → BoundSize.eval ⟨i⟩ p = some ((s : ℚ))) := by
  refine ⟨?_, ?_, ?_, ?_, ?_, ?_⟩
  · cases h : p.freeSizeA i <;> simp [FreeSizeA.eval, h]
  · intro s h
    simp [FreeSizeA.eval, h]
  · cases h : p.freeSizeB i <;> simp [FreeSizeB.eval, h]
  · intro s h
    simp [FreeSizeB.eval, h]
  · cases h : p.boundSize i <;> simp [BoundSize.eval, h]
  · intro s h
    simp [BoundSize.eval, h]

/-- C8 witness: at a concrete problem an out-of-range index yields the
propagated accessor failure and an in-range index yields the size. -/
theorem C8_witness :
    FreeSizeA.eval ⟨2⟩ pEx = none
    ∧ FreeSizeA.eval ⟨0⟩ pEx = some (((5 : ℕ) : ℚ)) :=
  ⟨(C8_failure_propagated pEx 2).1.mpr rfl,
    (C8_failure_propagated pEx 0).2.1 5 rfl⟩

/-- C9: with the same scale-factor payload, `CUGranularity` evaluation is
exactly `WavesPerSIMD` evaluation composed with the granularity function
(the batch factor being fixed at `1`). -/
theorem C9_cu_is_granularity_of_waves (g : ℚ → ℚ)
    (sf : GranularityScaleFactors) (p : ContractionProblem) :
    CUGranularity.eval g ⟨sf⟩ p = (WavesPerSIMD.eval ⟨sf⟩ p).map g :=
  cuGranularity_eq_map_wavesPerSIMD g sf p

/-- C10: the four derived features read the problem only through
`freeSizeA(0)` and `freeSizeB(0)`: two problems agreeing on those two
accessors are indistinguishable to each identically configured derived
feature. -/
theorem C10_first_free_sizes_only (g : ℚ → ℚ) (p1 p2 : ContractionProblem)
    (hA : p1.freeSizeA 0 = p2.freeSizeA 0) (hB : p1.freeSizeB 0 = p2.freeSizeB 0) :
    (∀ v : ℚ, Tile0Granularity.eval g ⟨v⟩ p1 = Tile0Granularity.eval g ⟨v⟩ p2)
    ∧ (∀ v : ℚ, Tile1Granularity.eval g ⟨v⟩ p1 = Tile1Granularity.eval g ⟨v⟩ p2)
    ∧ (∀ sf : GranularityScaleFactors,
        CUGranularity.eval g ⟨sf⟩ p1 = CUGranularity.eval g ⟨sf⟩ p2)
    ∧ (∀ sf : GranularityScaleFactors,
        WavesPerSIMD.eval ⟨sf⟩ p1 = WavesPerSIMD.eval ⟨sf⟩ p2) := by
  refine ⟨fun v => ?_, fun v => ?_, fun sf => ?_, fun sf => ?_⟩
  · unfold Tile0Granularity.eval
    rw [hA]
  · unfold Tile1Granularity.eval
    rw [hB]
  · unfold CUGranularity.eval
    rw [hA, hB]
  · unfold WavesPerSIMD.eval
    rw [hA, hB]

/-- C10 witness: two concrete problems sharing only their first free sizes
(differing in bound sizes and higher free indices) evaluate identically
under `CUGranularity` and `WavesPerSIMD`. -/
theorem C10_witness :
    CUGranularity.eval id ⟨sfEx⟩ pEx = CUGranularity.eval id ⟨sfEx⟩ pEx2
    ∧ WavesPerSIMD.eval ⟨sfEx⟩ pEx = WavesPerSIMD.eval ⟨sfEx⟩ pEx2 :=
  ⟨(C10_first_free_sizes_only id pEx pEx2 rfl rfl).2.2.1 sfEx,
    (C10_first_free_sizes_only id pEx pEx2 rfl rfl).2.2.2 sfEx⟩
